import Mathlib

/-!
Verification development for the Wine Society order-history scraper
(`src/wine_soc_order_scraper_selenium.py`).  The Python string operations,
the DOM lookups and the per-order control flow are shallowly embedded as
executable Lean definitions over `List Char` strings; the stateful browser
session is embedded as explicit state passing over a `Browser` record.
-/

namespace WineScraper

/-- Strings are modelled as lists of characters. -/
abbrev Str := List Char

/-- Coercion from Lean string literals into the model's string type. -/
def str (s : String) : Str := s.data

/-- Python `s.startswith(p)`: `strPrefixOf p s` is true when `p` is a prefix of `s`. -/
def strPrefixOf : Str → Str → Bool
  | [], _ => true
  | _ :: _, [] => false
  | a :: as, b :: bs => (a == b) && strPrefixOf as bs

/-- Python `needle in hay` (substring containment). -/
def strContains (hay needle : Str) : Bool :=
  strPrefixOf needle hay ||
    match hay with
    | [] => false
    | _ :: t => strContains t needle

/-- Whitespace characters stripped by Python `str.strip()` (ASCII range). -/
def isPySpace (c : Char) : Bool :=
  c == ' ' || c == '\t' || c == '\n' || c == '\r' || c == Char.ofNat 11 || c == Char.ofNat 12

/-- Python `s.strip()`: remove leading and trailing whitespace. -/
def pyStrip (s : Str) : Str :=
  ((s.dropWhile isPySpace).reverse.dropWhile isPySpace).reverse

/-- Python `s.strip(set)`: remove leading and trailing characters drawn from `set`. -/
def pyStripChars (set : List Char) (s : Str) : Str :=
  ((s.dropWhile (set.contains ·)).reverse.dropWhile (set.contains ·)).reverse

/-- Fuelled worker for Python `str.split(sep)` with a non-empty separator.
The fuel starts at the length of the input, which each step strictly consumes,
so the fuel never runs out on the inputs `pySplitSep` supplies. -/
def splitGoF (sep : Str) (acc : Str) : Nat → Str → List Str
  | _, [] => [acc.reverse]
  | 0, s => [acc.reverse ++ s]
  | fuel + 1, x :: xs =>
    if strPrefixOf sep (x :: xs) then
      acc.reverse :: splitGoF sep [] fuel ((x :: xs).drop sep.length)
    else
      splitGoF sep (x :: acc) fuel xs

/-- Python `s.split(sep)` for a non-empty separator `sep`. -/
def pySplitSep (sep s : Str) : List Str :=
  splitGoF sep [] s.length s

/-- ASCII lower-casing of a model string (used only by spec-side definitions). -/
def strToLower (s : Str) : Str := s.map Char.toLower

/-- Whitespace in the XPath `normalize-space` sense. -/
def isXmlSpace (c : Char) : Bool :=
  c == ' ' || c == '\t' || c == '\n' || c == '\r'

/-- Worker splitting a string into maximal non-whitespace runs. -/
def wordsAux (cur : Str) : Str → List Str
  | [] => if cur.isEmpty then [] else [cur.reverse]
  | c :: rest =>
    if isXmlSpace c then
      if cur.isEmpty then wordsAux [] rest else cur.reverse :: wordsAux [] rest
    else
      wordsAux (c :: cur) rest

/-- XPath `normalize-space`: trim both ends and collapse internal whitespace
runs to single spaces. -/
def xpathNormalizeSpace (s : Str) : Str :=
  List.intercalate [' '] (wordsAux [] s)

/-! ## URL resolution (`handle_order_detail_page` lines 347-355,
`download_wine_notes_from_toolbar` lines 183-191)

The source computes the page origin as
`current_url.split("/")[0] + "//" + current_url.split("/")[2]`; the indexing
is modelled with `getD` (it never goes out of range on the absolute
`scheme://host/...` URLs the browser reports as `current_url`). -/

/-- Origin of the current page: part 0 of the split on `/`, then `//`, then
part 2 of the split, exactly as the Python code assembles it. -/
def urlOrigin (currentUrl : Str) : Str :=
  (pySplitSep (str "/") currentUrl).getD 0 [] ++ str "//" ++
    (pySplitSep (str "/") currentUrl).getD 2 []

/-- Resolution of an embedded-navigation target: a target beginning with `/`
is prefixed with the current page's origin, any other target is unchanged. -/
def resolveNavTarget (currentUrl target : Str) : Str :=
  if strPrefixOf (str "/") target then urlOrigin currentUrl ++ target else target

/-! ## Order-number label stripping (`extract_order_number_from_element`,
lines 223-238) -/

/-- The label-prefix list of `extract_order_number_from_element`, in the
source's order. -/
def orderPrefixes : List Str :=
  [str "Order No:", str "Order number:", str "Order #:",
   str "Order no:", str "OrderNo:", str "OrderNumber:"]

/-- Embedding of `extract_order_number_from_element`: the first prefix in
`orderPrefixes` that the text starts with is removed and the remainder is
stripped of surrounding whitespace; if no prefix matches, the raw text is
returned. -/
def extract_order_number_from_element (s : Str) : Str :=
  match orderPrefixes.find? (fun p => strPrefixOf p s) with
  | some p => pyStrip (s.drop p.length)
  | none => s

/-! ## Log messages -/

/-- One log record emitted through the module logger. -/
inductive LogMsg where
  | info (m : String)
  | warning (m : String)
  | error (m : String)
deriving DecidableEq

/-! ## The DOM of one order-detail page

Each field captures the outcome of one locator of
`handle_order_detail_page` and its helpers on that (static) page. -/

/-- Model of one order-detail page as the locators of the source see it. -/
structure DetailPage where
  /-- Text of the first element matching the order-number label XPath
  (lines 287-292); `none` when the page has no such element, in which case
  the initial `wait.until` on the same XPath (lines 275-284) times out. -/
  orderNumberText : Option Str
  /-- Result of the `Date placed` heading locator (lines 300-304): `none`
  when no such `h3` exists; `some pText` when it exists, where `pText` is
  the text of the sibling paragraph (`none` when the parent `div` has no
  `p`, making `extract_order_date_from_h3` fail internally). -/
  dateParagraph : Option (Option Str)
  /-- Result of the `Order total` group locator (lines 311-315), with the
  inner paragraph text, same shape as `dateParagraph`. -/
  totalParagraph : Option (Option Str)
  /-- The `onclick` attribute of each button matched by the
  `download receipt` XPath (lines 330-337), in document order. -/
  receiptButtons : List (Option Str)
  /-- `none` when the toolbar `div` of `download_wine_notes_from_toolbar`
  (lines 166-170) is absent; otherwise the `onclick` attribute of each
  `button` inside it, in document order. -/
  toolbarButtons : Option (List (Option Str))
  /-- The `href` attribute of each anchor matching
  `//a[contains(@href, '/product/')]` (lines 208-210), in document order. -/
  productAnchors : List (Option Str)
  /-- `driver.current_url` on this page. -/
  url : Str
  /-- Whether the `Page.printToPDF` export plus file write succeeds. -/
  exportOk : Bool
deriving DecidableEq

/-- Embedding of the `OrderDetail` dataclass (lines 28-41). -/
structure OrderDetail where
  order_number : Option Str
  order_date : Option Str
  order_total : Option Str
  url : Str
  pdf_path : Option Str
  receipts : List Str
  wine_notes : List Str
  wine_links : List Str
  download_dir : Str := str "Data"
deriving DecidableEq

/-! ## Field extraction -/

/-- Embedding of the order-date extraction (call site lines 299-308 plus
`extract_order_date_from_h3`, lines 240-247): absent heading and absent
sibling paragraph both degrade to `none`, with the corresponding log line. -/
def extractDate : Option (Option Str) → Option Str × List LogMsg
  | none =>
    (none, [.error "Order Date could not be found on the order detail page."])
  | some none => (none, [.error "Error extracting order date from h3"])
  | some (some t) => (some (pyStrip t), [])

/-- Embedding of the order-total extraction (call site lines 309-319 plus
`extract_order_total_from_div`, lines 249-255). -/
def extractTotal : Option (Option Str) → Option Str × List LogMsg
  | none =>
    (none, [.error "Order Total could not be found on the order detail page."])
  | some none => (none, [.error "Error extracting order total from div"])
  | some (some t) => (some (pyStrip t), [])

/-- Embedding of `save_order_page_as_pdf` (lines 116-129): the export is
attempted, success and failure are logged, and neither outcome raises. -/
def save_order_page_as_pdf (exportOk : Bool) (_path : Str) : List LogMsg :=
  if exportOk then [.info "Saved PDF"] else [.error "Error saving PDF"]

/-! ## Receipt links (lines 327-367) -/

/-- One pass of the receipt-button loop (lines 339-356): a truthy `onclick`
containing `location.href=` has the text after that marker extracted,
whitespace- and quote-stripped, and resolved against the page origin. -/
def extractReceiptUrl (currentUrl : Str) : Option Str → Option Str
  | none => none
  | some oc =>
    if !oc.isEmpty && strContains oc (str "location.href=") then
      let part := (pySplitSep (str "location.href=") oc).getD 1 []
      some (resolveNavTarget currentUrl (pyStripChars (str "'\";") (pyStrip part)))
    else
      none

/-- All receipt links collected from the matched buttons, in document order. -/
def collectReceiptLinks (p : DetailPage) : List Str :=
  p.receiptButtons.filterMap (extractReceiptUrl p.url)

/-! ## Wine-notes toolbar (lines 159-200)

The source extracts the download URL from the button's `onclick` attribute
with the regular expression `location\.href\s*=\s*['"]([^'"]+)['"]`;
`matchAssignAt` is that pattern anchored at one position and
`searchAssign` is `re.search` (first matching position, left to right). -/

/-- Characters matched by the regex class `\s`. -/
def isReSpace (c : Char) : Bool :=
  c == ' ' || c == '\t' || c == '\n' || c == '\r' || c == Char.ofNat 11 || c == Char.ofNat 12

/-- Quote characters of the regex classes `['"]` and `[^'"]`. -/
def isQuoteChar (c : Char) : Bool := c == '\'' || c == '"'

/-- Attempt the pattern `location\.href\s*=\s*['"]([^'"]+)['"]` at the start
of `s`; on success return capture group 1. -/
def matchAssignAt (s : Str) : Option Str :=
  if strPrefixOf (str "location.href") s then
    let s1 := (s.drop (str "location.href").length).dropWhile isReSpace
    match s1 with
    | '=' :: s2 =>
      match s2.dropWhile isReSpace with
      | q :: s3 =>
        if isQuoteChar q then
          let body := s3.takeWhile (fun c => !isQuoteChar c)
          if body.isEmpty then none
          else
            match s3.drop body.length with
            | q2 :: _ => if isQuoteChar q2 then some body else none
            | [] => none
        else none
      | [] => none
    | _ => none
  else none

/-- `re.search` for the location-assignment pattern: try every start
position from the left and return the first capture. -/
def searchAssign : Str → Option Str
  | [] => none
  | c :: rest =>
    match matchAssignAt (c :: rest) with
    | some r => some r
    | none => searchAssign rest

/-- Worker for the button loop of `download_wine_notes_from_toolbar`
(lines 172-196): the first button whose truthy `onclick` contains
`DownloadWineNotesPdf` and matches the pattern yields the resolved URL;
a keyword button whose `onclick` fails the pattern is skipped. -/
def findNotesUrl (currentUrl : Str) : List (Option Str) → Option Str
  | [] => none
  | none :: rest => findNotesUrl currentUrl rest
  | some oc :: rest =>
    if !oc.isEmpty && strContains oc (str "DownloadWineNotesPdf") then
      match searchAssign oc with
      | some urlPart => some (resolveNavTarget currentUrl urlPart)
      | none => findNotesUrl currentUrl rest
    else
      findNotesUrl currentUrl rest

/-- Embedding of `download_wine_notes_from_toolbar`: an absent toolbar is
caught and degrades to `none`, an exhausted button loop logs a warning. -/
def download_wine_notes_from_toolbar (p : DetailPage) : Option Str × List LogMsg :=
  match p.toolbarButtons with
  | none => (none, [.error "Error downloading wine notes from toolbar"])
  | some btns =>
    match findNotesUrl p.url btns with
    | some u => (some u, [.info "Triggering download of wine notes"])
    | none => (none, [.warning "No Download wine notes button found in toolbar."])

/-- The wine-notes link list built at lines 370-376: the URL returned by the
toolbar helper is appended when truthy. -/
def wineNotesLinksOf (p : DetailPage) : List Str :=
  match (download_wine_notes_from_toolbar p).1 with
  | some u => if u.isEmpty then [] else [u]
  | none => []

/-- The snapshot path computed at lines 321-323:
`order_details/<order_number or 'unknown_order'>.pdf`, where Python's `or`
substitutes the placeholder for an empty extracted number. -/
def pdfPathOf (orderNumber : Str) : Str :=
  str "order_details/" ++
    (if orderNumber.isEmpty then str "unknown_order" else orderNumber) ++ str ".pdf"

/-- Embedding of `handle_order_detail_page` (lines 257-397).  When the page
has no element matching the order-number label XPath, the initial
`wait.until` raises, the outer handler catches it and the function returns
no record; otherwise every field and artifact is collected through its own
guarded extractor and a record is always returned. -/
def handle_order_detail_page (p : DetailPage) : Option OrderDetail × List LogMsg :=
  match p.orderNumberText with
  | none => (none, [.error "Error extracting order details"])
  | some t =>
    let order_number := extract_order_number_from_element t
    let order_date := (extractDate p.dateParagraph).1
    let dateLogs := (extractDate p.dateParagraph).2
    let order_total := (extractTotal p.totalParagraph).1
    let totalLogs := (extractTotal p.totalParagraph).2
    let pdf_path := pdfPathOf order_number
    let pdfLogs := save_order_page_as_pdf p.exportOk pdf_path
    let receipts := collectReceiptLinks p
    let receiptLogs :=
      if receipts.isEmpty then
        [LogMsg.warning "No receipt link found on the order detail page."]
      else []
    let notesLogs := (download_wine_notes_from_toolbar p).2
    let wine_notes := wineNotesLinksOf p
    (some
      { order_number := some order_number
        order_date := order_date
        order_total := order_total
        url := p.url
        pdf_path := some pdf_path
        receipts := receipts
        wine_notes := wine_notes
        wine_links := wine_notes },
      dateLogs ++ totalLogs ++ pdfLogs ++ receiptLogs ++ notesLogs)

/-! ## Listing discovery (`get_order_view_buttons`, lines 107-114, and the
href collection of `scrape_all_orders`, lines 407-412) -/

/-- One anchor element of the listing page, as the XPath sees it: its text
node, its `class` attribute (empty when absent) and its `href` attribute. -/
structure Anchor where
  text : Str
  cls : Str
  href : Option Str
deriving DecidableEq

/-- The XPath predicate
`a[normalize-space(text())='View' and contains(@class, 'btn')]`. -/
def viewButtonPred (a : Anchor) : Bool :=
  (xpathNormalizeSpace a.text == str "View") && strContains a.cls (str "btn")

/-- Embedding of `get_order_view_buttons`: the anchors matching the XPath,
in document order. -/
def get_order_view_buttons (anchors : List Anchor) : List Anchor :=
  anchors.filter viewButtonPred

/-- Python truthiness of an `href` attribute (`if href:`): present and
non-empty. -/
def truthyHref : Option Str → Option Str
  | some h => if h.isEmpty then none else some h
  | none => none

/-- The href collection of `scrape_all_orders` (lines 408-412): each view
button's `href`, kept only when truthy (present and non-empty). -/
def collectHrefs (anchors : List Anchor) : List Str :=
  (get_order_view_buttons anchors).filterMap fun a => truthyHref a.href

/-! ## The browser session (`scrape_all_orders`, lines 399-422)

The browser is a list of open window handles plus the active handle;
`window.open` appends a fresh handle, `switch_to.window` changes the active
handle, and — notably — `scrape_all_orders` never calls `driver.close()`. -/

/-- The tab state of the driver: open window handles in creation order, the
active handle, and a supply of fresh handle names. -/
structure Browser where
  tabs : List Nat
  current : Nat
  fresh : Nat
deriving DecidableEq

/-- One iteration of the per-order loop (lines 414-421): open a new tab on
the order URL, focus it (`window_handles[-1]`), run
`handle_order_detail_page` on that order's page, append a truthy result,
then refocus the listing tab captured before the loop.  No handle is ever
closed. -/
def scrapeStep (pageOf : Str → DetailPage) (mainWindow : Nat)
    (st : Browser × List OrderDetail × List LogMsg) (href : Str) :
    Browser × List OrderDetail × List LogMsg :=
  let b := st.1
  let opened : Browser := { tabs := b.tabs ++ [b.fresh], current := b.fresh, fresh := b.fresh + 1 }
  let orders :=
    match (handle_order_detail_page (pageOf href)).1 with
    | some r => st.2.1 ++ [r]
    | none => st.2.1
  ({ opened with current := mainWindow }, orders,
    st.2.2 ++ (handle_order_detail_page (pageOf href)).2)

/-- Embedding of `scrape_all_orders`: collect the view-button hrefs, record
the listing tab as `main_window`, then fold the per-order loop over the
hrefs.  `pageOf` gives the DOM that opening each href produces. -/
def scrape_all_orders (b : Browser) (anchors : List Anchor)
    (pageOf : Str → DetailPage) : Browser × List OrderDetail × List LogMsg :=
  (collectHrefs anchors).foldl (scrapeStep pageOf b.current) (b, [], [])

/-! ## Spec-side definitions

These definitions follow the words of the spec sentences under test, for
comparison with the embeddings above; they are deliberately NOT taken from
the source. -/

/-- The five label variants the spec recognizes, colon-terminated, in the
spec's priority order. -/
def specOrderPrefixes : List Str :=
  [str "Order No:", str "Order number:", str "Order #:",
   str "OrderNo:", str "OrderNumber:"]

/-- Order-number stripping as the spec words it: strip a matching prefix of
the spec's five-variant set, otherwise keep the raw text. -/
def specExtractOrderNumber (s : Str) : Str :=
  match specOrderPrefixes.find? (fun p => strPrefixOf p s) with
  | some p => pyStrip (s.drop p.length)
  | none => s

/-- Listing discovery as the spec words it: every control whose visible
label matches the action word `View` case- and whitespace-insensitively and
that exposes a navigable URL, in document order. -/
def specDiscoverRefs (anchors : List Anchor) : List Str :=
  anchors.filterMap fun a =>
    if strToLower (xpathNormalizeSpace a.text) == strToLower (str "View") then
      match a.href with
      | some h => if h.isEmpty then none else some h
      | none => none
    else none

/-- Product links as the spec words them: the resolved URL of every
hyperlink whose target contains the `/product/` marker, in document order,
without de-duplication.  `DetailPage.productAnchors` already holds exactly
the hrefs of the anchors matching that marker. -/
def specProductLinks (p : DetailPage) : List Str :=
  p.productAnchors.filterMap id

/-! ## Concrete pages used by witnesses and counterexamples -/

/-- A well-formed detail page: marker present, date and total present, one
receipt button, one wine-notes toolbar button, one product anchor. -/
def samplePage : DetailPage where
  orderNumberText := some (str "Order No: TWSWEB-13480088")
  dateParagraph := some (some (str " 1 June 2024 "))
  totalParagraph := some (some (str "156.00"))
  receiptButtons :=
    [some (str "location.href='/CustomFileDownload/DownloadInvoice?orderNumber=TWSWEB-13480088';")]
  toolbarButtons :=
    some [some (str "DownloadWineNotesPdf(); location.href = '/CustomFileDownload/DownloadWineNotesPdf?orderNumber=TWSWEB-13480088'")]
  productAnchors := [some (str "https://www.thewinesociety.com/product/fine-red")]
  url := str "https://www.thewinesociety.com/order/13480088"
  exportOk := true

/-- A detail page with no element containing any order-number label, while
the date and total groups are present. -/
def noMarkerPage : DetailPage where
  orderNumberText := none
  dateParagraph := some (some (str "2 June 2024"))
  totalParagraph := some (some (str "50.00"))
  receiptButtons := []
  toolbarButtons := none
  productAnchors := []
  url := str "https://www.thewinesociety.com/order/2"
  exportOk := true

/-- A detail page whose snapshot export fails. -/
def exportFailPage : DetailPage where
  orderNumberText := some (str "Order No: 77")
  dateParagraph := none
  totalParagraph := none
  receiptButtons := []
  toolbarButtons := none
  productAnchors := []
  url := str "https://www.thewinesociety.com/order/77"
  exportOk := false

/-- A detail page carrying a product hyperlink but no wine-notes toolbar. -/
def productOnlyPage : DetailPage where
  orderNumberText := some (str "Order No: TWSWEB-9")
  dateParagraph := none
  totalParagraph := none
  receiptButtons := []
  toolbarButtons := none
  productAnchors := [some (str "https://www.thewinesociety.com/product/wine-1")]
  url := str "https://www.thewinesociety.com/order/9"
  exportOk := true

/-- A listing anchor for the scrape loop. -/
def sampleAnchor : Anchor where
  text := str "View"
  cls := str "btn btn-secondary"
  href := some (str "https://www.thewinesociety.com/order/13480088")

/-- Listing anchors refuting the case-insensitivity and the absence of a
class constraint: an upper-cased `VIEW` anchor with the `btn` class, and a
correctly-labelled anchor without the `btn` class, both with URLs. -/
def mixedAnchors : List Anchor :=
  [{ text := str "VIEW", cls := str "btn", href := some (str "https://s/o/1") },
   { text := str " View ", cls := str "link", href := some (str "https://s/o/2") }]

/-- The wine-notes URL that `samplePage` yields. -/
def sampleNoteUrl : Str :=
  str "https://www.thewinesociety.com/CustomFileDownload/DownloadWineNotesPdf?orderNumber=TWSWEB-13480088"

/-- The record `handle_order_detail_page` produces on `samplePage`. -/
def sampleRecord : OrderDetail where
  order_number := some (str "TWSWEB-13480088")
  order_date := some (str "1 June 2024")
  order_total := some (str "156.00")
  url := str "https://www.thewinesociety.com/order/13480088"
  pdf_path := some (str "order_details/TWSWEB-13480088.pdf")
  receipts :=
    [str "https://www.thewinesociety.com/CustomFileDownload/DownloadInvoice?orderNumber=TWSWEB-13480088"]
  wine_notes := [sampleNoteUrl]
  wine_links := [sampleNoteUrl]

/-! ## Helper lemmas -/

set_option maxRecDepth 10000

/-- With no element matching the order-number label XPath, the page-load
wait times out and `handle_order_detail_page` returns no record. -/
lemma handle_none_eq (p : DetailPage) (h : p.orderNumberText = none) :
    handle_order_detail_page p = (none, [.error "Error extracting order details"]) := by
  simp [handle_order_detail_page, h]

/-- With the order-number marker present, `handle_order_detail_page`
returns the record assembled componentwise from the independent
extractors, together with their concatenated logs. -/
lemma handle_some_eq (p : DetailPage) (t : Str) (h : p.orderNumberText = some t) :
    handle_order_detail_page p =
      (some
        { order_number := some (extract_order_number_from_element t)
          order_date := (extractDate p.dateParagraph).1
          order_total := (extractTotal p.totalParagraph).1
          url := p.url
          pdf_path := some (pdfPathOf (extract_order_number_from_element t))
          receipts := collectReceiptLinks p
          wine_notes := wineNotesLinksOf p
          wine_links := wineNotesLinksOf p },
        (extractDate p.dateParagraph).2 ++ (extractTotal p.totalParagraph).2 ++
          save_order_page_as_pdf p.exportOk (pdfPathOf (extract_order_number_from_element t)) ++
          (if (collectReceiptLinks p).isEmpty then
            [LogMsg.warning "No receipt link found on the order detail page."]
          else []) ++
          (download_wine_notes_from_toolbar p).2) := by
  simp [handle_order_detail_page, h]

/-- At most one wine-notes link is ever recorded. -/
lemma wineNotesLinksOf_length (p : DetailPage) : (wineNotesLinksOf p).length <= 1 := by
  rw [wineNotesLinksOf]
  cases hn : (download_wine_notes_from_toolbar p).1 with
  | none => simp
  | some u => by_cases hu : u.isEmpty = true <;> simp [hu]

/-- The wine-notes link list never depends on the page's product anchors. -/
lemma wineNotesLinksOf_update (p : DetailPage) (pa : List (Option Str)) :
    wineNotesLinksOf { p with productAnchors := pa } = wineNotesLinksOf p := by
  rfl

/-- Characterization of the Python-truthiness filter on `href`. -/
lemma truthyHref_eq_some (o : Option Str) (h : Str) :
    truthyHref o = some h ↔ o = some h ∧ h.isEmpty = false := by
  cases o with
  | none => simp [truthyHref]
  | some hh =>
    simp only [truthyHref, Option.some.injEq]
    by_cases he : hh.isEmpty = true
    · rw [if_pos he]
      constructor
      · intro hx; cases hx
      · rintro ⟨rfl, hf⟩; rw [he] at hf; cases hf
    · rw [if_neg he]
      simp only [Option.some.injEq]
      constructor
      · rintro rfl; exact ⟨rfl, Bool.eq_false_iff.mpr (fun hc => he hc)⟩
      · rintro ⟨rfl, _⟩; rfl

/-- The per-order loop accumulates exactly the records of the successful
pages, in href order. -/
lemma scrape_fold_orders (pf : Str → DetailPage) (mainW : Nat) :
    ∀ (hrefs : List Str) (b : Browser) (os : List OrderDetail) (ls : List LogMsg),
      ((hrefs.foldl (scrapeStep pf mainW) (b, os, ls)).2.1) =
        os ++ hrefs.filterMap (fun h => (handle_order_detail_page (pf h)).1) := by
  intro hrefs
  induction hrefs with
  | nil => intro b os ls; simp
  | cons h hs ih =>
    intro b os ls
    rw [List.foldl_cons]
    cases hr : (handle_order_detail_page (pf h)).1 with
    | none =>
      have hstep : scrapeStep pf mainW (b, os, ls) h =
          ({ tabs := b.tabs ++ [b.fresh], current := mainW, fresh := b.fresh + 1 }, os,
            ls ++ (handle_order_detail_page (pf h)).2) := by
        simp [scrapeStep, hr]
      rw [hstep, ih]
      simp [List.filterMap_cons, hr]
    | some r =>
      have hstep : scrapeStep pf mainW (b, os, ls) h =
          ({ tabs := b.tabs ++ [b.fresh], current := mainW, fresh := b.fresh + 1 }, os ++ [r],
            ls ++ (handle_order_detail_page (pf h)).2) := by
        simp [scrapeStep, hr]
      rw [hstep, ih]
      simp [List.filterMap_cons, hr]

/-- Splitting on a single separator character: a separator-free chunk before
the first separator becomes one token, and splitting continues on the tail
(with some sufficient fuel). -/
lemma splitGoF_single_break (c : Char) (acc xs ys : Str) (fuel : Nat)
    (hf : xs.length + 1 + ys.length <= fuel) (h : c ∉ xs) :
    ∃ fuel2, ys.length <= fuel2 ∧
      splitGoF [c] acc fuel (xs ++ c :: ys) =
        (acc.reverse ++ xs) :: splitGoF [c] [] fuel2 ys := by
  induction xs generalizing acc fuel with
  | nil =>
    cases fuel with
    | zero => simp at hf
    | succ f =>
      simp only [List.length_nil] at hf
      refine ⟨f, by omega, ?_⟩
      simp [splitGoF, strPrefixOf]
  | cons x xs ih =>
    cases fuel with
    | zero => simp at hf
    | succ f =>
      have hx : x ≠ c := fun hxc => h (by simp [hxc])
      have h' : c ∉ xs := fun hc => h (by simp [hc])
      obtain ⟨fuel2, hf2, heq⟩ := ih (x :: acc) f (by simp at hf ⊢; omega) h'
      refine ⟨fuel2, hf2, ?_⟩
      have hpre : strPrefixOf [c] (x :: (xs ++ c :: ys)) = false := by
        simp [strPrefixOf]
        exact fun hcx => hx hcx.symm
      calc splitGoF [c] acc (f + 1) ((x :: xs) ++ c :: ys)
          = splitGoF [c] (x :: acc) f (xs ++ c :: ys) := by
            simp [splitGoF, hpre]
        _ = ((x :: acc).reverse ++ xs) :: splitGoF [c] [] fuel2 ys := heq
        _ = (acc.reverse ++ x :: xs) :: splitGoF [c] [] fuel2 ys := by simp

/-- On an absolute URL `scheme//host/rest` whose scheme part (colon
included) and host contain no slash, the source's
`split("/")[0] + "//" + split("/")[2]` computes exactly scheme plus host. -/
lemma urlOrigin_abs (sc host rest : Str) (h1 : '/' ∉ sc) (h2 : '/' ∉ host) :
    urlOrigin (sc ++ str "//" ++ host ++ str "/" ++ rest) = sc ++ str "//" ++ host := by
  have hu : sc ++ str "//" ++ host ++ str "/" ++ rest =
      sc ++ '/' :: ('/' :: (host ++ '/' :: rest)) := by
    simp [str, List.append_assoc]
  obtain ⟨f2, hf2, e1⟩ := splitGoF_single_break '/' [] sc ('/' :: (host ++ '/' :: rest))
      (sc ++ '/' :: ('/' :: (host ++ '/' :: rest))).length (by simp; omega) h1
  obtain ⟨f3, hf3, e2⟩ := splitGoF_single_break '/' [] [] (host ++ '/' :: rest) f2
      (by simp at hf2 ⊢; omega) (by simp)
  obtain ⟨f4, _, e3⟩ := splitGoF_single_break '/' [] host rest f3
      (by simp at hf3 ⊢; omega) h2
  simp only [List.reverse_nil, List.nil_append] at e1 e2 e3
  have key : pySplitSep (str "/") (sc ++ str "//" ++ host ++ str "/" ++ rest) =
      sc :: [] :: host :: splitGoF ['/'] [] f4 rest := by
    rw [hu]
    show splitGoF ['/'] [] _ _ = _
    rw [e1, e2, e3]
  rw [urlOrigin, key]
  simp [List.getD, str]

/-! ## Claim theorems -/

/-- C6 counterexample: the text `Order no:X1` starts with none of the five
label variants the claim recognizes, so by the claim the raw text would be
kept; the code strips the sixth, unlisted variant `Order no:` and returns
`X1`, so the claim is false at this input. -/
theorem c6_order_no_variant_counterexample :
    extract_order_number_from_element (str "Order no:X1") = str "X1" ∧
      specExtractOrderNumber (str "Order no:X1") = str "Order no:X1" ∧
      ¬(extract_order_number_from_element (str "Order no:X1") =
          specExtractOrderNumber (str "Order no:X1")) := by
  refine ⟨by decide, by decide, by decide⟩

/-- C6 (amended): the recognized label set has six colon-terminated
variants — `Order No:`, `Order number:`, `Order #:`, `Order no:`,
`OrderNo:`, `OrderNumber:`, checked in that order; for every prefix in the
set and every value string, extracting an element whose text is the prefix
followed by the value yields the value stripped of leading and trailing
whitespace, and text starting with no recognized prefix is kept raw. -/
theorem c6_prefix_stripping :
    (∀ p ∈ orderPrefixes, ∀ v : Str,
        extract_order_number_from_element (p ++ v) = pyStrip v) ∧
    (∀ t : Str, (∀ p ∈ orderPrefixes, strPrefixOf p t = false) →
        extract_order_number_from_element t = t) := by
  constructor
  · intro p hp v
    simp only [orderPrefixes, List.mem_cons, List.not_mem_nil, or_false] at hp
    rcases hp with rfl | rfl | rfl | rfl | rfl | rfl <;> rfl
  · intro t ht
    have hnone : orderPrefixes.find? (fun p => strPrefixOf p t) = none := by
      rw [List.find?_eq_none]
      intro x hx
      simp [ht x hx]
    simp [extract_order_number_from_element, hnone]

/-- C6 witness: stripping the fourth variant with a padded value, and
keeping raw text that starts with no variant. -/
theorem c6_prefix_stripping_witness :
    extract_order_number_from_element (str "Order no:" ++ str " TWSWEB-77 ") =
        str "TWSWEB-77" ∧
      extract_order_number_from_element (str "12345") = str "12345" := by
  have h1 := c6_prefix_stripping.1 (str "Order no:") (by decide) (str " TWSWEB-77 ")
  have h2 := c6_prefix_stripping.2 (str "12345") (by decide)
  exact ⟨h1.trans (by decide), h2⟩

/-- C8: resolving an embedded-navigation target against the current page of
an absolute URL `scheme//host/rest` prepends the page origin (scheme plus
host) exactly when the target begins with `/`, and keeps any other target
unchanged. -/
theorem c8_relative_url_resolution (sc host rest target : Str)
    (h1 : '/' ∉ sc) (h2 : '/' ∉ host) :
    resolveNavTarget (sc ++ str "//" ++ host ++ str "/" ++ rest) target =
      if strPrefixOf (str "/") target then sc ++ str "//" ++ host ++ target
      else target := by
  by_cases hs : strPrefixOf (str "/") target = true
  · rw [resolveNavTarget, if_pos hs, if_pos hs, urlOrigin_abs sc host rest h1 h2]
  · rw [resolveNavTarget, if_neg hs, if_neg hs]

/-- C8 witness: the claim's own example, resolving
`/CustomFileDownload/DownloadInvoice?orderNumber=TWSWEB-1` against a page
at origin `https://example.com`. -/
theorem c8_relative_url_resolution_witness :
    resolveNavTarget
        (str "https:" ++ str "//" ++ str "example.com" ++ str "/" ++ str "my-account")
        (str "/CustomFileDownload/DownloadInvoice?orderNumber=TWSWEB-1") =
      str "https://example.com/CustomFileDownload/DownloadInvoice?orderNumber=TWSWEB-1" := by
  rw [c8_relative_url_resolution _ _ _ _ (by decide) (by decide)]
  decide

/-- C1 counterexample: on a detail page with no order-number element but
with the date and total groups present, the extraction does not return a
record with `order_number` absent — it returns no record at all, because
the page-load wait on the order-number XPath times out and the outer
handler aborts the whole order. -/
theorem c1_missing_marker_counterexample :
    (handle_order_detail_page noMarkerPage).1 = none ∧
      noMarkerPage.orderNumberText = none ∧
      noMarkerPage.dateParagraph = some (some (str "2 June 2024")) ∧
      noMarkerPage.totalParagraph = some (some (str "50.00")) := by
  refine ⟨by decide, by decide, by decide, by decide⟩

/-- C1 (amended): if the order-number element is absent the whole order is
aborted and no record is returned; when it is present, the record's
fields are computed by independent extractors, each reading only its own
page component, so a failure to locate the date or the total leaves that
field absent without affecting the others. -/
theorem c1_field_independence_amended :
    (∀ p : DetailPage, p.orderNumberText = none →
        (handle_order_detail_page p).1 = none) ∧
    (∀ (p : DetailPage) (t : Str), p.orderNumberText = some t →
        (handle_order_detail_page p).1 = some
          { order_number := some (extract_order_number_from_element t)
            order_date := (extractDate p.dateParagraph).1
            order_total := (extractTotal p.totalParagraph).1
            url := p.url
            pdf_path := some (pdfPathOf (extract_order_number_from_element t))
            receipts := collectReceiptLinks p
            wine_notes := wineNotesLinksOf p
            wine_links := wineNotesLinksOf p }) := by
  constructor
  · intro p h; rw [handle_none_eq p h]
  · intro p t h; rw [handle_some_eq p t h]

/-- C1 witness: the amended statement evaluated on a marker-less page and
on a fully populated page. -/
theorem c1_field_independence_witness :
    (handle_order_detail_page noMarkerPage).1 = none ∧
      (handle_order_detail_page samplePage).1 = some sampleRecord := by
  refine ⟨c1_field_independence_amended.1 noMarkerPage rfl, ?_⟩
  rw [c1_field_independence_amended.2 samplePage (str "Order No: TWSWEB-13480088") rfl]
  decide

/-- C2: the claim (and the docstring of `scrape_all_orders`) says every
per-order tab is closed before returning to the listing tab, but the loop
never calls `driver.close()`: after harvesting one reference from a
single-tab browser, the active tab is back on the listing tab yet the
per-order tab handle is still open. -/
theorem c2_order_tab_left_open :
    (scrape_all_orders ⟨[0], 0, 1⟩ [sampleAnchor] (fun _ => samplePage)).1.tabs = [0, 1] ∧
      (scrape_all_orders ⟨[0], 0, 1⟩ [sampleAnchor] (fun _ => samplePage)).1.current = 0 ∧
      ((scrape_all_orders ⟨[0], 0, 1⟩ [sampleAnchor] (fun _ => samplePage)).2.1).length = 1 := by
  refine ⟨by decide, by decide, by decide⟩

/-- C3: over any listing and any assignment of detail pages to hrefs, the
harvest returns (totally, without raising) exactly the records of the
references whose per-order handler produced one, in discovery order —
i.e. the `filterMap` of the handler over the discovered hrefs — and hence
a sequence of length at most the number of discovered references. -/
theorem c3_harvest_order_preserving :
    ∀ (b : Browser) (anchors : List Anchor) (pageOf : Str → DetailPage),
      (scrape_all_orders b anchors pageOf).2.1 =
        (collectHrefs anchors).filterMap
          (fun h => (handle_order_detail_page (pageOf h)).1) ∧
      ((scrape_all_orders b anchors pageOf).2.1).length <= (collectHrefs anchors).length := by
  intro b anchors pageOf
  have he := scrape_fold_orders pageOf b.current (collectHrefs anchors) b [] []
  have he2 : (scrape_all_orders b anchors pageOf).2.1 =
      (collectHrefs anchors).filterMap (fun h => (handle_order_detail_page (pageOf h)).1) := by
    rw [scrape_all_orders, he]
    simp
  refine ⟨he2, ?_⟩
  rw [he2]
  exact List.length_filterMap_le _ _

/-- C4 counterexample: on a page carrying one `/product/` hyperlink and no
wine-notes button, the record's product-link field (`wine_links`) is empty
rather than the document-order list of product URLs the claim requires. -/
theorem c4_product_links_counterexample :
    ((handle_order_detail_page productOnlyPage).1.map (fun r => r.wine_links)) = some [] ∧
      specProductLinks productOnlyPage =
        [str "https://www.thewinesociety.com/product/wine-1"] ∧
      ¬(((handle_order_detail_page productOnlyPage).1.map (fun r => r.wine_links)) =
          some (specProductLinks productOnlyPage)) := by
  refine ⟨by decide, by decide, by decide⟩

/-- C4 (amended): the record carries no product-link collection at all —
its `wine_links` field duplicates the tasting-note links (at most one URL)
and is entirely independent of the page's `/product/` hyperlinks. -/
theorem c4_wine_links_ignore_products :
    ∀ (p : DetailPage) (rec : OrderDetail),
      (handle_order_detail_page p).1 = some rec →
      rec.wine_links = wineNotesLinksOf p ∧ rec.wine_links.length <= 1 ∧
      ∀ pa : List (Option Str),
        ((handle_order_detail_page { p with productAnchors := pa }).1.map
            (fun r => r.wine_links)) = some (wineNotesLinksOf p) := by
  intro p rec h
  obtain hm | ⟨t, hm⟩ : p.orderNumberText = none ∨ ∃ t, p.orderNumberText = some t := by
    cases p.orderNumberText with
    | none => exact Or.inl rfl
    | some t => exact Or.inr ⟨t, rfl⟩
  · rw [handle_none_eq p hm] at h; cases h
  · rw [handle_some_eq p t hm] at h
    injection h with h'
    subst h'
    refine ⟨rfl, wineNotesLinksOf_length p, ?_⟩
    intro pa
    rw [handle_some_eq { p with productAnchors := pa } t hm]
    simp [wineNotesLinksOf_update]

/-- C4 witness: the amended statement evaluated on the fully populated
sample page. -/
theorem c4_wine_links_witness :
    (handle_order_detail_page samplePage).1 = some sampleRecord ∧
      sampleRecord.wine_links = wineNotesLinksOf samplePage ∧
      sampleRecord.wine_links.length <= 1 := by
  have h : (handle_order_detail_page samplePage).1 = some sampleRecord := by decide
  have hc := c4_wine_links_ignore_products samplePage sampleRecord h
  exact ⟨h, hc.1, hc.2.1⟩

/-- C5 counterexample: when the snapshot export fails, the failure is
logged and nothing is raised, but the record's snapshot-path field is not
absent — it still holds the path derived from the order identifier. -/
theorem c5_snapshot_path_counterexample :
    ((handle_order_detail_page exportFailPage).1.map (fun r => r.pdf_path)) =
        some (some (str "order_details/77.pdf")) ∧
      exportFailPage.exportOk = false ∧
      LogMsg.error "Error saving PDF" ∈ (handle_order_detail_page exportFailPage).2 ∧
      ¬(((handle_order_detail_page exportFailPage).1.map (fun r => r.pdf_path)) = some none) := by
  refine ⟨by decide, by decide, by decide, by decide⟩

/-- C5 (amended): export failure is logged and does not raise, but the
snapshot-path field is recorded regardless of export success, always equal
to the path derived from the extracted order identifier (with the
`unknown_order` placeholder substituted for an empty identifier). -/
theorem c5_snapshot_path_always_recorded :
    ∀ (p : DetailPage) (t : Str), p.orderNumberText = some t →
      ∃ rec, (handle_order_detail_page p).1 = some rec ∧
        rec.pdf_path = some (pdfPathOf (extract_order_number_from_element t)) ∧
        (p.exportOk = false →
          LogMsg.error "Error saving PDF" ∈ (handle_order_detail_page p).2) ∧
        (p.exportOk = true →
          LogMsg.info "Saved PDF" ∈ (handle_order_detail_page p).2) := by
  intro p t h
  rw [handle_some_eq p t h]
  refine ⟨_, rfl, rfl, ?_, ?_⟩
  · intro he; simp [save_order_page_as_pdf, he]
  · intro he; simp [save_order_page_as_pdf, he]

/-- C5 witness: the amended statement evaluated on the page whose export
fails. -/
theorem c5_snapshot_path_witness :
    ∃ rec, (handle_order_detail_page exportFailPage).1 = some rec ∧
      rec.pdf_path = some (pdfPathOf (extract_order_number_from_element (str "Order No: 77"))) ∧
      LogMsg.error "Error saving PDF" ∈ (handle_order_detail_page exportFailPage).2 := by
  obtain ⟨rec, h1, h2, h3, _⟩ :=
    c5_snapshot_path_always_recorded exportFailPage (str "Order No: 77") rfl
  exact ⟨rec, h1, h2, h3 rfl⟩

/-- C7 counterexample: an anchor labelled `VIEW` (with the `btn` class and
a URL) and an anchor labelled `View` without the `btn` class (with a URL)
are both excluded by the code, while the claim's case-insensitive,
class-free discovery would return both. -/
theorem c7_discovery_counterexample :
    collectHrefs mixedAnchors = [] ∧
      specDiscoverRefs mixedAnchors = [str "https://s/o/1", str "https://s/o/2"] ∧
      ¬(collectHrefs mixedAnchors = specDiscoverRefs mixedAnchors) := by
  refine ⟨by decide, by decide, by decide⟩

/-- C7 (amended): discovery returns exactly the anchors whose label
normalizes (whitespace only — the match is case-sensitive) to `View` AND
whose class attribute contains `btn`, keeping only those exposing a
non-empty URL; document order and duplicates are preserved (the collection
distributes over list concatenation). -/
theorem c7_discovery_characterization :
    ∀ (l₁ l₂ : List Anchor) (h : Str),
      collectHrefs (l₁ ++ l₂) = collectHrefs l₁ ++ collectHrefs l₂ ∧
      (h ∈ collectHrefs l₁ ↔ ∃ a ∈ l₁,
        xpathNormalizeSpace a.text = str "View" ∧
        strContains a.cls (str "btn") = true ∧
        a.href = some h ∧ h.isEmpty = false) := by
  intro l₁ l₂ h
  constructor
  · simp [collectHrefs, get_order_view_buttons, List.filter_append]
  · simp only [collectHrefs, get_order_view_buttons, List.mem_filterMap, List.mem_filter]
    constructor
    · rintro ⟨a, ⟨ha, hpred⟩, hth⟩
      rw [truthyHref_eq_some] at hth
      have hp := hpred
      simp only [viewButtonPred, Bool.and_eq_true, beq_iff_eq] at hp
      exact ⟨a, ha, hp.1, hp.2, hth.1, hth.2⟩
    · rintro ⟨a, ha, h1, h2, h3, h4⟩
      exact ⟨a, ⟨ha, by simp [viewButtonPred, h1, h2]⟩,
        (truthyHref_eq_some a.href h).mpr ⟨h3, h4⟩⟩

/-- C9: on any detail page (whose order-number marker is present, so that
a record is returned at all) with zero matching receipt controls, the
record's `receipt_links` is the empty sequence — present, not absent — a
warning is logged, no error is raised, and every other field is the value
its own independent extractor computes. -/
theorem c9_empty_receipts :
    ∀ (p : DetailPage) (t : Str), p.orderNumberText = some t →
      p.receiptButtons = [] →
      ∃ rec, (handle_order_detail_page p).1 = some rec ∧
        rec.receipts = [] ∧
        LogMsg.warning "No receipt link found on the order detail page." ∈
          (handle_order_detail_page p).2 ∧
        rec.order_number = some (extract_order_number_from_element t) ∧
        rec.order_date = (extractDate p.dateParagraph).1 ∧
        rec.order_total = (extractTotal p.totalParagraph).1 ∧
        rec.wine_notes = wineNotesLinksOf p ∧
        rec.url = p.url := by
  intro p t h hr
  have hempty : collectReceiptLinks p = [] := by
    simp [collectReceiptLinks, hr]
  rw [handle_some_eq p t h]
  refine ⟨_, rfl, hempty, ?_, rfl, rfl, rfl, rfl, rfl⟩
  simp [hempty]

/-- C9 witness: the statement evaluated on a concrete page with no receipt
controls. -/
theorem c9_empty_receipts_witness :
    ∃ rec, (handle_order_detail_page exportFailPage).1 = some rec ∧
      rec.receipts = [] ∧
      LogMsg.warning "No receipt link found on the order detail page." ∈
        (handle_order_detail_page exportFailPage).2 := by
  obtain ⟨rec, h1, h2, h3, _⟩ :=
    c9_empty_receipts exportFailPage (str "Order No: 77") rfl rfl
  exact ⟨rec, h1, h2, h3⟩

/-- C10: every record returned by the per-order extraction has its
`wine_links` field equal to its `wine_notes` field, a sequence of at most
one URL — the record never carries product links distinct from the
tasting-note link. -/
theorem c10_wine_links_eq_wine_notes :
    ∀ (p : DetailPage) (rec : OrderDetail),
      (handle_order_detail_page p).1 = some rec →
      rec.wine_links = rec.wine_notes ∧ rec.wine_notes.length <= 1 := by
  intro p rec h
  obtain hm | ⟨t, hm⟩ : p.orderNumberText = none ∨ ∃ t, p.orderNumberText = some t := by
    cases p.orderNumberText with
    | none => exact Or.inl rfl
    | some t => exact Or.inr ⟨t, rfl⟩
  · rw [handle_none_eq p hm] at h; cases h
  · rw [handle_some_eq p t hm] at h
    injection h with h'
    subst h'
    exact ⟨rfl, wineNotesLinksOf_length p⟩

/-- C10 witness: the invariant evaluated on the fully populated sample
page and its record. -/
theorem c10_wine_links_eq_wine_notes_witness :
    sampleRecord.wine_links = sampleRecord.wine_notes ∧
      sampleRecord.wine_notes.length <= 1 := by
  have h : (handle_order_detail_page samplePage).1 = some sampleRecord := by decide
  exact c10_wine_links_eq_wine_notes samplePage sampleRecord h

end WineScraper
